import Mathlib

/-!
Shallow embedding of the CRUCIBLE performance-testing harness
(`src/crucible/logger.c` and `src/crucible/cpu.c`), together with proofs
about the behaviour of its recording and stress-orchestration operations.

The file models:
* the logging subsystem (`logger.c`): the global `Logger` state, session and
  metric appends, size-triggered rotation, flushing, and an interleaving
  semantics for two unsynchronized concurrent `logger_log` calls;
* the CPU stress subsystem (`cpu.c`): per-mode stress plans, the worker
  spawn/cleanup loop, per-thread deadline computation, and the derived
  CPU-percentage calculation.

Wall-clock readings (`time`, `strftime`, `difftime`) are environment inputs;
they enter the model as explicit parameters (a rendered timestamp string, a
numeric instant).  File contents are modelled as lists of the exact strings
the C code writes with `fprintf`; file size is the total byte length of that
content, matching `ftell` on the stream.
-/

namespace Crucible

/-- Log levels, from `logger.h` (`LOG_DEBUG < LOG_INFO < LOG_WARNING < LOG_ERROR`). -/
inductive LogLevel : Type
  | LOG_DEBUG
  | LOG_INFO
  | LOG_WARNING
  | LOG_ERROR
deriving DecidableEq, Repr

open LogLevel

/-- Numeric value of a level, as the C enum assigns (declaration order). -/
def LogLevel.toNat : LogLevel → Nat
  | LOG_DEBUG => 0
  | LOG_INFO => 1
  | LOG_WARNING => 2
  | LOG_ERROR => 3

/-- The C comparison `a < b` on `LogLevel` values (enum integer comparison). -/
def level_lt (a b : LogLevel) : Bool := a.toNat < b.toNat

/-- `logger_level_str` from `logger.c`: the display name of a level.  The C
`default: return "UNKNOWN"` branch is unreachable for values of the enum. -/
def logger_level_str : LogLevel → String
  | LOG_DEBUG => "DEBUG"
  | LOG_INFO => "INFO"
  | LOG_WARNING => "WARNING"
  | LOG_ERROR => "ERROR"

/-- The state of the global `Logger` (`g_logger` in `logger.c`) together with
the part of the file system the logger touches.  `session_log` / `metric_log`
hold the content of `<dir>/session.log` and `<dir>/metrics.csv` as the list of
strings written to them; `session_on_disk` / `metric_on_disk` say whether the
file currently exists at its canonical path (rename during rotation removes
it; `fopen "a"` recreates it).  `archived_sessions` / `archived_metrics`
collect the contents moved to timestamp-suffixed archive names, most recent
first. -/
structure LoggerState : Type where
  session_log : List String
  metric_log : List String
  log_dir : String
  level : LogLevel
  initialized : Bool
  buffer_enabled : Bool
  max_file_size : Nat
  session_on_disk : Bool
  metric_on_disk : Bool
  archived_sessions : List (List String)
  archived_metrics : List (List String)
deriving DecidableEq, Repr

/-- Byte size of a modelled file: the sum of the lengths of the strings
written to it (each written string already carries its trailing newline). -/
def file_size (lines : List String) : Nat := (lines.map String.length).sum

/-- The exact line `logger_log` writes: `"[%s] [%s] %s\n"` with the timestamp,
the level name and the formatted message. -/
def session_line (ts : String) (lvl : LogLevel) (msg : String) : String :=
  "[" ++ ts ++ "] [" ++ logger_level_str lvl ++ "] " ++ msg ++ "\n"

/-- The exact row `logger_metric` writes: `"%s,%.1f,%s,%s\n"`.  The rendered
elapsed-seconds field is an environment-derived string parameter. -/
def metric_row (ts elapsed name values : String) : String :=
  ts ++ "," ++ elapsed ++ "," ++ name ++ "," ++ values ++ "\n"

/-- The CSV header `logger_init` and `logger_rotate` write to the metrics log. -/
def metric_header : String := "timestamp,elapsed_seconds,metric,values\n"

/-- The message `logger_rotate` logs after reopening fresh streams. -/
def rotated_message : String := "Log files rotated"

/-- `logger_rotate` from `logger.c`.  Flushes, closes both streams, renames
each current file to its archive name — a missing source file (`ENOENT`) is
tolerated and simply skipped — reopens fresh streams, re-emits the metric CSV
header, and logs `"Log files rotated"` at INFO through `logger_info`.

That final `logger_info` call re-enters `logger_log`, whose
`check_and_rotate_logs` re-reads the fresh file sizes; if the freshly written
metric header alone already exceeds a nonzero threshold the C code recurses
into `logger_rotate` without ever making progress, which the model reports as
`none` (the call does not return).  `ts` is the wall-clock timestamp rendered
for this call.  The returned `Bool` is the C return value. -/
def logger_rotate (ts : String) (st : LoggerState) : Option (Bool × LoggerState) :=
  if st.initialized = false then some (false, st)
  else
    let st1 : LoggerState :=
      { st with
        archived_sessions :=
          if st.session_on_disk then st.session_log :: st.archived_sessions
          else st.archived_sessions
        archived_metrics :=
          if st.metric_on_disk then st.metric_log :: st.archived_metrics
          else st.archived_metrics
        session_log := []
        metric_log := []
        session_on_disk := true
        metric_on_disk := true }
    let st2 : LoggerState := { st1 with metric_log := [metric_header] }
    if level_lt LOG_INFO st2.level then some (true, st2)
    else
      if st2.max_file_size ≠ 0 ∧
          (file_size st2.session_log > st2.max_file_size ∨
            file_size st2.metric_log > st2.max_file_size) then
        none
      else
        some (true,
          { st2 with
            session_log := st2.session_log ++ [session_line ts LOG_INFO rotated_message] })

/-- `check_and_rotate_logs` from `logger.c`: a no-op when the logger is not
initialized or rotation is disabled (`max_file_size = 0`); otherwise rotates
when either file's size exceeds the threshold (strictly). -/
def check_and_rotate_logs (ts : String) (st : LoggerState) : Option (Bool × LoggerState) :=
  if st.initialized = false ∨ st.max_file_size = 0 then some (true, st)
  else
    if file_size st.session_log > st.max_file_size ∨
        file_size st.metric_log > st.max_file_size then
      logger_rotate ts st
    else
      some (true, st)

/-- `logger_log` from `logger.c`: returns immediately when uninitialized or
when the message's level is below the current threshold; otherwise runs the
rotation check and then appends the formatted line to the session stream.
(The conditional `fflush` moves buffered bytes to the OS; the model's file
content does not distinguish buffered from flushed bytes.) -/
def logger_log (ts : String) (lvl : LogLevel) (msg : String) (st : LoggerState) :
    Option LoggerState :=
  if st.initialized = false ∨ level_lt lvl st.level then some st
  else
    match check_and_rotate_logs ts st with
    | none => none
    | some (_, st1) =>
        some { st1 with session_log := st1.session_log ++ [session_line ts lvl msg] }

/-- `logger_metric` from `logger.c`: returns immediately when uninitialized
(no level check at all); otherwise runs the rotation check and appends one CSV
row to the metric stream. -/
def logger_metric (ts elapsed name values : String) (st : LoggerState) :
    Option LoggerState :=
  if st.initialized = false then some st
  else
    match check_and_rotate_logs ts st with
    | none => none
    | some (_, st1) =>
        some { st1 with metric_log := st1.metric_log ++ [metric_row ts elapsed name values] }

/-- Identifies one of the logger's two output streams. -/
inductive StreamTag : Type
  | session
  | metric
deriving DecidableEq, Repr

/-- `logger_flush` from `logger.c`: fails without touching either stream when
uninitialized; otherwise flushes both and succeeds iff both `fflush` calls
succeed.  The outcomes of the two `fflush` calls are environment inputs
(`session_flush_ok`, `metric_flush_ok`); the second component lists the
streams on which `fflush` was invoked. -/
def logger_flush (session_flush_ok metric_flush_ok : Bool) (st : LoggerState) :
    Bool × List StreamTag :=
  if st.initialized = false then (false, [])
  else (session_flush_ok && metric_flush_ok, [StreamTag.session, StreamTag.metric])

/-- `BYTES_PER_MB` from `logger.c`. -/
def bytes_per_mb : Nat := 1024 * 1024

/-- `logger_init` from `logger.c`, success path of the environment calls
(`strdup`, `mkdir`, `fopen` succeed; the log directory starts empty, so
neither file pre-exists).  Stores the settings, opens both files, writes the
metric CSV header, marks the logger initialized, and logs the startup message
at INFO. -/
def logger_init (ts log_dir : String) (lvl : LogLevel) (rotate_mb : Nat)
    (buffer : Bool) : Option LoggerState :=
  let st0 : LoggerState :=
    { session_log := []
      metric_log := [metric_header]
      log_dir := log_dir
      level := lvl
      initialized := true
      buffer_enabled := buffer
      max_file_size := rotate_mb * bytes_per_mb
      session_on_disk := true
      metric_on_disk := true
      archived_sessions := []
      archived_metrics := [] }
  logger_log ts LOG_INFO
    ("Logging initialized (level: " ++ logger_level_str lvl ++ ", directory: " ++
      log_dir ++ ", rotation: " ++ toString rotate_mb ++ " MB, buffering: " ++
      (if buffer then "enabled" else "disabled") ++ ")")
    st0

/-! ## CPU stress subsystem (`cpu.c`) -/

/-- Test modes, as `cpu.c` names them (`BASELINE`, `STRESS`, `LOAD`, `SPIKE`,
and the composite `ALL` expanded by `run_cpu_tests`).  Modelled from the spec:
the enum declaration that `cpu.c` compiles against is not among the source
files under `src/`; its constructors are exactly the values `cpu.c` uses. -/
inductive TestMode : Type
  | BASELINE
  | STRESS
  | LOAD
  | SPIKE
  | ALL
deriving DecidableEq, Repr

open TestMode

/-- `CpuStressConfig` from `cpu.c` (the `sample_interval` field is never
assigned or read on the modelled paths and is omitted). -/
structure CpuStressConfig : Type where
  num_threads : Nat
  stress_duration : Nat
deriving DecidableEq, Repr

/-- The deadline a stress worker computes for itself at the top of
`cpu_stress_thread` (`cpu.c` line 186): `time(NULL) + config->stress_duration`,
where `now` is that worker's own wall-clock reading when its thread starts
running. -/
def cpu_stress_thread_end_time (now : Nat) (config : CpuStressConfig) : Nat :=
  now + config.stress_duration

/-- The `switch (mode)` of `run_cpu_stress` (`cpu.c` lines 224-253): the
stress configuration each mode receives, given the detected hardware thread
count and the configured duration.  `none` is the `default:` branch, which
logs "Invalid test mode for CPU stress test" and returns failure before any
thread is created. -/
def run_cpu_stress_plan (threads duration_seconds : Nat) :
    TestMode → Option CpuStressConfig
  | BASELINE => some ⟨0, duration_seconds⟩
  | STRESS => some ⟨threads, duration_seconds⟩
  | LOAD => some ⟨threads / 2, duration_seconds⟩
  | SPIKE => some ⟨threads, 30⟩
  | ALL => none

/-- Outcome of the spawn loop of `run_cpu_stress` (`cpu.c` lines 272-292):
whether the call returns success, which workers (0-based) were started, which
were cancelled-and-joined on the failure path, and which were joined normally
on the success path. -/
structure SpawnResult : Type where
  success : Bool
  started : List Nat
  cancelled_joined : List Nat
  joined : List Nat
deriving DecidableEq, Repr

/-- The spawn loop of `run_cpu_stress` from position `i`: `ok j` says whether
`pthread_create` succeeds for worker `j` (an environment input).  On the first
failure at `j`, workers `0..j-1` are cancelled and joined and the call returns
failure; if every create succeeds, all `n` workers are joined normally and the
call returns success. -/
def spawn_go (ok : Nat → Bool) (n : Nat) (i : Nat) : SpawnResult :=
  if _h : i < n then
    if ok i then spawn_go ok n (i + 1)
    else ⟨false, List.range i, List.range i, []⟩
  else ⟨true, List.range n, [], List.range n⟩
termination_by n - i

/-- The whole spawn-and-join phase of `run_cpu_stress` for `n` workers. -/
def run_cpu_stress_spawn (ok : Nat → Bool) (n : Nat) : SpawnResult :=
  spawn_go ok n 0

/-- The sequence of stress modes `run_cpu_tests` (`cpu.c` lines 369-388)
executes for a configured mode: `ALL` expands to baseline, load, stress,
spike, in that order; any other mode runs alone. -/
def run_cpu_tests_modes (mode : TestMode) : List TestMode :=
  if mode = ALL then [BASELINE, LOAD, STRESS, SPIKE] else [mode]

/-- `CpuUsage` from `cpu.h`: the two counters kept from a `/proc/stat`
snapshot.  The fields are C `unsigned long` values (64-bit). -/
structure CpuUsage : Type where
  total : Nat
  idle : Nat
deriving DecidableEq, Repr

/-- Modulus of C `unsigned long` arithmetic on the target platform. -/
def ulong_mod : Nat := 2 ^ 64

/-- `calculate_cpu_percentage` from `cpu.c`: the deltas are computed with
wrapping unsigned subtraction; a zero total delta short-circuits to the
sentinel `0.0` before any division.  The C `float` arithmetic of the nonzero
branch is modelled exactly over `ℚ`; the zero branch, the claims' subject,
involves no rounding at all. -/
def calculate_cpu_percentage (prev curr : CpuUsage) : ℚ :=
  let total_delta : Nat := (((curr.total : Int) - (prev.total : Int)) % (ulong_mod : Int)).toNat
  let idle_delta : Nat := (((curr.idle : Int) - (prev.idle : Int)) % (ulong_mod : Int)).toNat
  if total_delta = 0 then 0
  else 100 * (1 - (idle_delta : ℚ) / (total_delta : ℚ))

/-! ## Interleaving semantics for concurrent `logger_log` calls

`logger.c` contains no mutex (nor any other synchronization primitive), so a
`logger_log` call that has passed its guard consists of separately scheduled
statements: the size check inside `check_and_rotate_logs`, the
`logger_rotate` call it may decide on, and the `fprintf` append.  Each step
below is a contiguous block of C statements of one call, so every interleaving
of the steps of two calls is a real scheduling of two threads. -/

/-- The scheduling-relevant atomic steps of one guarded `logger_log` call:
reading the two file sizes and deciding whether to rotate
(`check_and_rotate_logs` lines 581-585), performing `logger_rotate` if the
decision was positive, and appending the formatted line. -/
inductive LogStep : Type
  | check
  | rot
  | app
deriving DecidableEq, Repr

/-- The step list of one `logger_log` call past its initialization/level
guard. -/
def logger_log_steps : List LogStep := [LogStep.check, LogStep.rot, LogStep.app]

/-- One `logger_log` call's identity: the timestamp it renders, its level and
its formatted message. -/
structure LogCall : Type where
  ts : String
  lvl : LogLevel
  msg : String
deriving DecidableEq, Repr

/-- The rotation decision `check_and_rotate_logs` takes from the shared state
it currently observes. -/
def rotation_due (st : LoggerState) : Bool :=
  decide (st.initialized = true ∧ st.max_file_size ≠ 0 ∧
    (file_size st.session_log > st.max_file_size ∨
      file_size st.metric_log > st.max_file_size))

/-- Effect of one step of call `c` on the shared logger state, given the
call's recorded rotation decision `dec`; returns the updated decision and
state (`none` if the step's `logger_rotate` diverges). -/
def log_step_effect (c : LogCall) (s : LogStep) (dec : Bool) (st : LoggerState) :
    Option (Bool × LoggerState) :=
  match s with
  | LogStep.check => some (rotation_due st, st)
  | LogStep.rot =>
      if dec then (logger_rotate c.ts st).map (fun p => (dec, p.2))
      else some (dec, st)
  | LogStep.app =>
      some (dec, { st with session_log := st.session_log ++ [session_line c.ts c.lvl c.msg] })

/-- Runs two concurrent guarded `logger_log` calls `a` and `b` under the
schedule `sched` (`true` picks thread A's next step, `false` thread B's); a
thread whose step list is exhausted skips its turn.  `pa`/`da` are thread A's
remaining steps and its recorded rotation decision, likewise `pb`/`db` for B. -/
def run_interleaved (a b : LogCall) :
    List Bool → List LogStep → Bool → List LogStep → Bool → LoggerState →
      Option LoggerState
  | [], _, _, _, _, st => some st
  | c :: rest, pa, da, pb, db, st =>
      if c then
        match pa with
        | [] => run_interleaved a b rest [] da pb db st
        | s :: pa' =>
            match log_step_effect a s da st with
            | none => none
            | some (da', st') => run_interleaved a b rest pa' da' pb db st'
      else
        match pb with
        | [] => run_interleaved a b rest pa da [] db st
        | s :: pb' =>
            match log_step_effect b s db st with
            | none => none
            | some (db', st') => run_interleaved a b rest pa da pb' db' st'

/-! ## Concrete states used by witnesses and by the concurrency counterexample -/

/-- A 250-byte line, longer than the demo rotation threshold below. -/
def long_line : String := String.mk (List.replicate 250 'x')

/-- A rendered `"%Y-%m-%d %H:%M:%S"` timestamp. -/
def demo_ts : String := "2025-03-20 12:00:00"

/-- An initialized logger whose session file (250 bytes) already exceeds its
200-byte rotation threshold; the metric file holds only the CSV header. -/
def demo_logger_state : LoggerState :=
  { session_log := [long_line]
    metric_log := [metric_header]
    log_dir := "logs"
    level := LogLevel.LOG_INFO
    initialized := true
    buffer_enabled := true
    max_file_size := 200
    session_on_disk := true
    metric_on_disk := true
    archived_sessions := []
    archived_metrics := [] }

/-- A logger that was never initialized (the zero value of `g_logger`). -/
def uninit_logger_state : LoggerState :=
  { session_log := []
    metric_log := []
    log_dir := ""
    level := LogLevel.LOG_INFO
    initialized := false
    buffer_enabled := true
    max_file_size := 0
    session_on_disk := false
    metric_on_disk := false
    archived_sessions := []
    archived_metrics := [] }

/-- An initialized logger with rotation disabled (`rotate_mb = 0`). -/
def idle_logger_state : LoggerState :=
  { session_log := []
    metric_log := [metric_header]
    log_dir := "logs"
    level := LogLevel.LOG_INFO
    initialized := true
    buffer_enabled := true
    max_file_size := 0
    session_on_disk := true
    metric_on_disk := true
    archived_sessions := []
    archived_metrics := [] }

/-- A freshly initialized logger (`logger_init` with `rotate_mb = 1`, level
INFO, before any further write): the session log holds only the startup
message, the metric log only the header. -/
def fresh_logger_state : LoggerState :=
  { session_log :=
      [session_line demo_ts LogLevel.LOG_INFO
        "Logging initialized (level: INFO, directory: logs, rotation: 1 MB, buffering: enabled)"]
    metric_log := [metric_header]
    log_dir := "logs"
    level := LogLevel.LOG_INFO
    initialized := true
    buffer_enabled := true
    max_file_size := 1 * bytes_per_mb
    session_on_disk := true
    metric_on_disk := true
    archived_sessions := []
    archived_metrics := [] }

/-! ## Theorems -/

/-- C3 counterexample: two workers of one and the same stress plan
(`CpuStressConfig` with 4 threads, duration 10 s) whose threads start one
second apart compute different wall-clock deadlines, refuting the claim that
all workers of a plan share one identical deadline value. -/
theorem cpu_deadline_not_shared_counterexample :
    ¬ (cpu_stress_thread_end_time 100 ⟨4, 10⟩ = cpu_stress_thread_end_time 101 ⟨4, 10⟩) := by
  decide

/-- C3 (amended): every stress worker computes its own deadline at the top of
`cpu_stress_thread`, as its own thread-start clock reading plus the plan's
shared `stress_duration`; two workers of the same plan obtain the identical
deadline value exactly when their threads observe the same start instant. -/
theorem cpu_deadline_per_worker (config : CpuStressConfig) (s₁ s₂ : Nat) :
    cpu_stress_thread_end_time s₁ config = cpu_stress_thread_end_time s₂ config ↔ s₁ = s₂ := by
  unfold cpu_stress_thread_end_time
  omega

/-- C5: the per-mode stress plans of `run_cpu_stress`: baseline gets 0
workers, stress all `N` hardware threads, load `⌊N/2⌋` threads, each for the
configured duration; spike gets `N` threads for the fixed 30-second burst,
independent of the configured duration; and every mode outside the four
recognized ones is rejected (`none`) before any plan is produced. -/
theorem run_cpu_stress_plan_per_mode (threads duration_seconds : Nat) :
    run_cpu_stress_plan threads duration_seconds TestMode.BASELINE = some ⟨0, duration_seconds⟩
    ∧ run_cpu_stress_plan threads duration_seconds TestMode.STRESS =
        some ⟨threads, duration_seconds⟩
    ∧ run_cpu_stress_plan threads duration_seconds TestMode.LOAD =
        some ⟨threads / 2, duration_seconds⟩
    ∧ run_cpu_stress_plan threads duration_seconds TestMode.SPIKE = some ⟨threads, 30⟩
    ∧ (∀ d', run_cpu_stress_plan threads d' TestMode.SPIKE =
        run_cpu_stress_plan threads duration_seconds TestMode.SPIKE)
    ∧ (∀ m, m ≠ TestMode.BASELINE → m ≠ TestMode.STRESS → m ≠ TestMode.LOAD →
        m ≠ TestMode.SPIKE → run_cpu_stress_plan threads duration_seconds m = none) := by
  refine ⟨rfl, rfl, rfl, rfl, fun _ => rfl, ?_⟩
  intro m h1 h2 h3 h4
  cases m <;> simp_all [run_cpu_stress_plan]

/-- C6: for the composite `ALL` mode, `run_cpu_tests` runs exactly one pass
per concrete mode, in the fixed order baseline, load, stress, spike —
baseline first, spike last, each mode exactly once. -/
theorem run_cpu_tests_all_order :
    run_cpu_tests_modes TestMode.ALL =
      [TestMode.BASELINE, TestMode.LOAD, TestMode.STRESS, TestMode.SPIKE]
    ∧ (run_cpu_tests_modes TestMode.ALL).head? = some TestMode.BASELINE
    ∧ (run_cpu_tests_modes TestMode.ALL).getLast? = some TestMode.SPIKE
    ∧ (run_cpu_tests_modes TestMode.ALL).count TestMode.BASELINE = 1
    ∧ (run_cpu_tests_modes TestMode.ALL).count TestMode.LOAD = 1
    ∧ (run_cpu_tests_modes TestMode.ALL).count TestMode.STRESS = 1
    ∧ (run_cpu_tests_modes TestMode.ALL).count TestMode.SPIKE = 1 := by
  decide

/-- C8: `calculate_cpu_percentage` is total, and on two snapshots with equal
totals — as on a tick whose predecessor produced no counter movement — it
returns the sentinel `0` via the explicit zero-delta branch, with no division
performed. -/
theorem calculate_cpu_percentage_equal_totals (prev curr : CpuUsage)
    (h : prev.total = curr.total) : calculate_cpu_percentage prev curr = 0 := by
  simp [calculate_cpu_percentage, h]

/-- C8 witness: two concrete snapshots with equal totals yield the sentinel. -/
theorem calculate_cpu_percentage_equal_totals_witness :
    calculate_cpu_percentage ⟨100, 50⟩ ⟨100, 70⟩ = 0 :=
  calculate_cpu_percentage_equal_totals ⟨100, 50⟩ ⟨100, 70⟩ rfl

/-- C10: `logger_flush` on an uninitialized logger returns failure without
invoking `fflush` on any stream; on an initialized logger it flushes both
streams and succeeds iff both underlying flushes succeed. -/
theorem logger_flush_success_iff (session_flush_ok metric_flush_ok : Bool)
    (st : LoggerState) :
    (st.initialized = false →
      logger_flush session_flush_ok metric_flush_ok st = (false, []))
    ∧ (st.initialized = true →
        ((logger_flush session_flush_ok metric_flush_ok st).1 = true ↔
          (session_flush_ok = true ∧ metric_flush_ok = true))) := by
  constructor
  · intro h
    simp [logger_flush, h]
  · intro h
    simp [logger_flush, h]

/-- C10 witness: concrete uninitialized and initialized flush calls. -/
theorem logger_flush_success_iff_witness :
    (logger_flush true false uninit_logger_state = (false, []))
    ∧ ((logger_flush true false idle_logger_state).1 = true ↔
        (true = true ∧ false = true)) :=
  ⟨(logger_flush_success_iff true false uninit_logger_state).1 rfl,
    (logger_flush_success_iff true false idle_logger_state).2 rfl⟩

/-- C9: `logger_metric` on an uninitialized logger is a no-op — no row is
appended and the state is returned unchanged — while on an initialized logger
(here away from the rotation trigger) it appends its CSV row with no severity
test at all: the result holds for every value of `st.level`. -/
theorem logger_metric_uninitialized_noop (ts elapsed name values : String)
    (st : LoggerState) :
    (st.initialized = false → logger_metric ts elapsed name values st = some st)
    ∧ (st.initialized = true →
        (st.max_file_size = 0 ∨
          (file_size st.session_log ≤ st.max_file_size ∧
            file_size st.metric_log ≤ st.max_file_size)) →
        logger_metric ts elapsed name values st =
          some { st with
            metric_log := st.metric_log ++ [metric_row ts elapsed name values] }) := by
  constructor
  · intro h
    simp [logger_metric, h]
  · intro h hq
    rcases hq with hq | ⟨hq1, hq2⟩
    · simp [logger_metric, check_and_rotate_logs, h, hq]
    · simp [logger_metric, check_and_rotate_logs, h, Nat.not_lt.2 hq1, Nat.not_lt.2 hq2]

/-- C9 witness: a concrete uninitialized no-op and a concrete initialized
append. -/
theorem logger_metric_uninitialized_noop_witness :
    (logger_metric demo_ts "0.0" "cpu_usage" "42" uninit_logger_state =
      some uninit_logger_state)
    ∧ (logger_metric demo_ts "0.0" "cpu_usage" "42" idle_logger_state =
        some { idle_logger_state with
          metric_log :=
            idle_logger_state.metric_log ++ [metric_row demo_ts "0.0" "cpu_usage" "42"] }) :=
  ⟨(logger_metric_uninitialized_noop demo_ts "0.0" "cpu_usage" "42" uninit_logger_state).1 rfl,
    (logger_metric_uninitialized_noop demo_ts "0.0" "cpu_usage" "42" idle_logger_state).2
      rfl (Or.inl rfl)⟩

/-- Helper: from any position `k ≤ i`, if every create below `i` succeeds and
the one at `i` fails (with `i < n`), the spawn loop ends on the failure path,
cancelling and joining exactly the workers `0..i-1`. -/
theorem spawn_go_first_failure (ok : Nat → Bool) (n i : Nat) (hin : i < n)
    (hok : ∀ j, j < i → ok j = true) (hfail : ok i = false) :
    ∀ d k, k + d = i → spawn_go ok n k = ⟨false, List.range i, List.range i, []⟩ := by
  intro d
  induction d with
  | zero =>
      intro k hk
      rw [spawn_go]
      simp only [Nat.add_zero] at hk
      subst hk
      simp [hin, hfail]
  | succ d ih =>
      intro k hk
      have hki : k < i := by omega
      rw [spawn_go]
      simp [Nat.lt_trans hki hin, hok k hki]
      exact ih (k + 1) (by omega)

/-- C4: if `pthread_create` succeeds for the first `i` workers (0-based
`0..i-1`) and fails for worker index `i` (the 1-based worker `i+1`), then
`run_cpu_stress_spawn` cancels and joins exactly those `i` already-started
workers, returns failure, and every started worker has been
cancelled-and-joined, so no worker is alive when the call returns. -/
theorem run_cpu_stress_spawn_failure_cleanup (ok : Nat → Bool) (n i : Nat)
    (hok : ∀ j, j < i → ok j = true) (hfail : ok i = false) (hin : i < n) :
    run_cpu_stress_spawn ok n = ⟨false, List.range i, List.range i, []⟩
    ∧ ∀ w, w ∈ (run_cpu_stress_spawn ok n).started →
        w ∈ (run_cpu_stress_spawn ok n).cancelled_joined := by
  have h : run_cpu_stress_spawn ok n = ⟨false, List.range i, List.range i, []⟩ :=
    spawn_go_first_failure ok n i hin hok hfail i 0 (by omega)
  refine ⟨h, ?_⟩
  rw [h]
  exact fun w hw => hw

/-- C4 witness: with three requested workers and `pthread_create` failing for
worker index 1 (the second worker), exactly worker 0 is cancelled and joined
and the pool reports failure. -/
theorem run_cpu_stress_spawn_failure_cleanup_witness :
    run_cpu_stress_spawn (fun j => decide (j < 1)) 3 = ⟨false, [0], [0], []⟩ := by
  have h := run_cpu_stress_spawn_failure_cleanup (fun j => decide (j < 1)) 3 1
    (fun j hj => by simp [Nat.lt_one_iff.mp hj]) (by decide) (by decide)
  simpa using h.1

/-- C7: `logger_rotate` on any initialized logger (with a threshold that is
zero or at least the metric header's size, as every `logger_init`-made
threshold is — rotation thresholds are whole megabytes) returns success;
each file present on disk is archived and each absent one is skipped as an
`ENOENT` treated as success; both streams are reopened fresh; the metric CSV
header is re-emitted as the sole content of the new metrics file.  In
particular a freshly initialized logger (both files present) rotates
successfully. -/
theorem logger_rotate_tolerates_absent_files (ts : String) (st : LoggerState)
    (hinit : st.initialized = true)
    (hhdr : metric_header.length ≤ st.max_file_size ∨ st.max_file_size = 0) :
    logger_rotate ts st =
      some (true,
        { st with
          archived_sessions :=
            if st.session_on_disk then st.session_log :: st.archived_sessions
            else st.archived_sessions
          archived_metrics :=
            if st.metric_on_disk then st.metric_log :: st.archived_metrics
            else st.archived_metrics
          session_log :=
            if level_lt LogLevel.LOG_INFO st.level then []
            else [session_line ts LogLevel.LOG_INFO rotated_message]
          metric_log := [metric_header]
          session_on_disk := true
          metric_on_disk := true }) := by
  cases hinfo : level_lt LogLevel.LOG_INFO st.level
  · rcases hhdr with hhdr | hhdr
    · simp [logger_rotate, hinit, hinfo, file_size, Nat.not_lt.2 hhdr]
    · simp [logger_rotate, hinit, hinfo, file_size, hhdr]
  · simp [logger_rotate, hinit, hinfo]

/-- C7 witness: rotating a freshly initialized logger (threshold 1 MB, both
files present, no prior rotation) succeeds, archives both just-created files,
and the new metrics file holds exactly the CSV header. -/
theorem logger_rotate_tolerates_absent_files_witness :
    logger_rotate demo_ts fresh_logger_state =
      some (true,
        { fresh_logger_state with
          archived_sessions := [fresh_logger_state.session_log]
          archived_metrics := [fresh_logger_state.metric_log]
          session_log := [session_line demo_ts LogLevel.LOG_INFO rotated_message]
          metric_log := [metric_header] }) := by
  have h := logger_rotate_tolerates_absent_files demo_ts fresh_logger_state rfl
    (Or.inl (by decide))
  simpa [fresh_logger_state] using h

/-- C2: rotation triggering on appends, for both `logger_log` and
`logger_metric` on an initialized logger whose message passes the level
filter.  With threshold 0 no rotation ever occurs: the line or row is
appended to the current file and the archives are untouched.  With a nonzero
threshold (at least the metric header's size, as every `logger_init`-made
threshold is) and either file strictly above it, `logger_rotate` runs before
the append: the pre-existing files are archived and the triggering write
lands in the freshly opened file, right after the rotation notice. -/
theorem append_rotation_trigger (ts msg elapsed name values : String)
    (lvl : LogLevel) (st : LoggerState)
    (hinit : st.initialized = true)
    (hlvl : level_lt lvl st.level = false) :
    (st.max_file_size = 0 →
      logger_log ts lvl msg st =
        some { st with session_log := st.session_log ++ [session_line ts lvl msg] })
    ∧ (st.max_file_size = 0 →
        logger_metric ts elapsed name values st =
          some { st with
            metric_log := st.metric_log ++ [metric_row ts elapsed name values] })
    ∧ (st.max_file_size ≠ 0 →
        (file_size st.session_log > st.max_file_size ∨
          file_size st.metric_log > st.max_file_size) →
        metric_header.length ≤ st.max_file_size →
        st.session_on_disk = true → st.metric_on_disk = true →
        logger_log ts lvl msg st =
          some { st with
            archived_sessions := st.session_log :: st.archived_sessions
            archived_metrics := st.metric_log :: st.archived_metrics
            session_log :=
              (if level_lt LogLevel.LOG_INFO st.level then []
               else [session_line ts LogLevel.LOG_INFO rotated_message]) ++
                [session_line ts lvl msg]
            metric_log := [metric_header]
            session_on_disk := true
            metric_on_disk := true })
    ∧ (st.max_file_size ≠ 0 →
        (file_size st.session_log > st.max_file_size ∨
          file_size st.metric_log > st.max_file_size) →
        metric_header.length ≤ st.max_file_size →
        st.session_on_disk = true → st.metric_on_disk = true →
        logger_metric ts elapsed name values st =
          some { st with
            archived_sessions := st.session_log :: st.archived_sessions
            archived_metrics := st.metric_log :: st.archived_metrics
            session_log :=
              if level_lt LogLevel.LOG_INFO st.level then []
              else [session_line ts LogLevel.LOG_INFO rotated_message]
            metric_log := [metric_header, metric_row ts elapsed name values]
            session_on_disk := true
            metric_on_disk := true }) := by
  refine ⟨?_, ?_, ?_, ?_⟩
  · intro hmax
    simp [logger_log, check_and_rotate_logs, hinit, hlvl, hmax]
  · intro hmax
    simp [logger_metric, check_and_rotate_logs, hinit, hmax]
  · intro hmax htrig hhdr hsd hmd
    have hcond : st.max_file_size < (List.map String.length st.session_log).sum ∨
        st.max_file_size < (List.map String.length st.metric_log).sum := htrig
    cases hinfo : level_lt LogLevel.LOG_INFO st.level
    · simp [logger_log, check_and_rotate_logs, logger_rotate, hinit, hlvl, hmax, hcond,
        hsd, hmd, hinfo, file_size, Nat.not_lt.2 hhdr]
    · simp [logger_log, check_and_rotate_logs, logger_rotate, hinit, hlvl, hmax, hcond,
        hsd, hmd, hinfo, file_size]
  · intro hmax htrig hhdr hsd hmd
    have hcond : st.max_file_size < (List.map String.length st.session_log).sum ∨
        st.max_file_size < (List.map String.length st.metric_log).sum := htrig
    cases hinfo : level_lt LogLevel.LOG_INFO st.level
    · simp [logger_metric, check_and_rotate_logs, logger_rotate, hinit, hmax, hcond,
        hsd, hmd, hinfo, file_size, Nat.not_lt.2 hhdr]
    · simp [logger_metric, check_and_rotate_logs, logger_rotate, hinit, hmax, hcond,
        hsd, hmd, hinfo, file_size]

set_option maxRecDepth 4096 in
/-- C2 witness: on a logger with a 200-byte threshold whose 250-byte session
file exceeds it, one `logger_log` call rotates first — archiving the old
files — and its line lands in the fresh session file after the rotation
notice. -/
theorem append_rotation_trigger_witness :
    logger_log demo_ts LogLevel.LOG_INFO "tick" demo_logger_state =
      some { demo_logger_state with
        archived_sessions := [[long_line]]
        archived_metrics := [[metric_header]]
        session_log :=
          [session_line demo_ts LogLevel.LOG_INFO rotated_message,
            session_line demo_ts LogLevel.LOG_INFO "tick"]
        metric_log := [metric_header] } := by
  have h := (append_rotation_trigger demo_ts "tick" "0.0" "cpu" "1"
    LogLevel.LOG_INFO demo_logger_state rfl rfl).2.2.1
    (by decide) (Or.inl (by decide)) (by decide) rfl rfl
  simpa [demo_logger_state] using h

set_option maxRecDepth 8192 in
/-- C1: `logger.c` holds no mutual-exclusion lock, and its
rotation-check-plus-append unit is in fact not atomic.  Two concurrent
guarded `logger_log` calls on the 250-byte-session / 200-byte-threshold
logger, scheduled so that both threads execute the size check of
`check_and_rotate_logs` before either calls `logger_rotate`, each decide to
rotate and rotate twice: the second rotation archives the nearly empty file
the first had just opened, leaving two archived session files.  Every
serialized order of the same two calls (either call completing before the
other starts) archives exactly once — so the interleaved outcome matches no
serialization, refuting the claimed total order of writes. -/
theorem logger_log_no_lock_interleaving_observable :
    (run_interleaved ⟨demo_ts, LogLevel.LOG_INFO, "a"⟩ ⟨demo_ts, LogLevel.LOG_INFO, "b"⟩
        [true, false, true, false, true, false]
        logger_log_steps false logger_log_steps false demo_logger_state).map
      (fun st => st.archived_sessions.length) = some 2
    ∧ ((logger_log demo_ts LogLevel.LOG_INFO "a" demo_logger_state).bind
        (logger_log demo_ts LogLevel.LOG_INFO "b")).map
      (fun st => st.archived_sessions.length) = some 1
    ∧ ((logger_log demo_ts LogLevel.LOG_INFO "b" demo_logger_state).bind
        (logger_log demo_ts LogLevel.LOG_INFO "a")).map
      (fun st => st.archived_sessions.length) = some 1 := by
  refine ⟨?_, ?_, ?_⟩ <;> decide

end Crucible
